import Mathlib

/-!
Verification of the voltai backend (src/main.py).

The backend exposes four HTTP handlers:
- calculate_teg_plan: a pure arithmetic calculator for an energy / carbon
  savings estimate;
- get_lst: queries a remote geospatial service for a land-surface-temperature
  collection and a solar-radiation collection, derives a raster per
  collection, samples a scalar at the request point, downloads a rendered
  thumbnail and persists it;
- get_street_view and get_hybrid_map: fetch a static map image and persist it.

Python floats are modelled as exact rationals; the round builtin is modelled
as exact round-half-to-even, which is the tie-breaking rule Python uses.
Everything the process does not compute itself (the Earth Engine geometry,
the filtered image collections, the HTTP status of the image download, the
wall clock) is an explicit input: a world record per handler.  Images are
pixel-indexed partial rasters, which is the standard meaning of a masked
Earth Engine image, and the filesystem is a map from paths to file contents.
-/

/-- Nearest integer with ties going to the even integer, the rounding rule of
the Python round builtin applied to an exact rational. -/
def roundHalfEven (q : ℚ) : ℤ :=
  if q - (⌊q⌋ : ℚ) < 1/2 then ⌊q⌋
  else if (1:ℚ)/2 < q - (⌊q⌋ : ℚ) then ⌊q⌋ + 1
  else if ⌊q⌋ % 2 = 0 then ⌊q⌋ else ⌊q⌋ + 1

/-- Model of the Python builtin round with a digit count: round to the given
number of decimal places, ties to even. -/
def pyRound (nd : ℕ) (q : ℚ) : ℚ := (roundHalfEven (q * 10 ^ nd) : ℚ) / 10 ^ nd

/-- Decimal digits of a fractional part, most significant first, stopping at
an exact zero remainder; the fuel bounds the printed length like the finite
precision of a Python float repr does. -/
def fracStr : ℕ → ℚ → String
  | 0, _ => ""
  | n+1, q =>
    if q = 0 then "" else
      toString (⌊q * 10⌋).toNat ++ fracStr n (q * 10 - (⌊q * 10⌋ : ℚ))

/-- Decimal rendering of a nonnegative rational; integers print with a
trailing ".0" exactly as Python prints a float-valued integer. -/
def decStringNN (q : ℚ) : String :=
  if q - (⌊q⌋ : ℚ) = 0 then toString (⌊q⌋).toNat ++ ".0"
  else toString (⌊q⌋).toNat ++ "." ++ fracStr 30 (q - (⌊q⌋ : ℚ))

/-- Model of the Python str rendering of a float value. -/
def decString (q : ℚ) : String :=
  if q < 0 then "-" ++ decStringNN (-q) else decStringNN q

/-- Model of the Python replace of the dot character by an underscore, as in
str(loc.lat).replace in src/main.py lines 145 and 170. -/
def dotToUnderscore (s : String) : String :=
  String.mk (s.data.map (fun c => if c = '.' then '_' else c))

/-! ## The TEG plan calculator, src/main.py lines 179-210 -/

/-- Constant CO2_PER_KWH_KG of main.py line 180. -/
def CO2_PER_KWH_KG : ℚ := 7/10

/-- Constant CARBON_CREDIT_PER_KG of main.py line 181. -/
def CARBON_CREDIT_PER_KG : ℚ := 1/1000

/-- Constant TARIFF_MIN of main.py line 182. -/
def TARIFF_MIN : ℚ := 218/1000

/-- Constant TARIFF_MAX of main.py line 183. -/
def TARIFF_MAX : ℚ := 571/1000

/-- Request body of the calculate_teg_plan endpoint, main.py lines 186-189. -/
structure TEGPlanInput where
  num_tegs : ℤ
  energy_per_module_wh : ℚ
  cost_per_module_rm : ℚ
deriving DecidableEq

/-- Response body of the calculate_teg_plan endpoint; the six fields are, in
order, the six keys of the returned dict in main.py lines 203-210. -/
structure TEGPlanResult where
  totalEnergyWh : ℚ
  totalEnergyKWh : ℚ
  numTegModules : ℤ
  co2SavedKg : ℚ
  carbonCreditsPerDay : ℚ
  costSavingsRange : String
deriving DecidableEq

/-- Intermediate total_energy_wh of main.py line 193. -/
def total_energy_wh (d : TEGPlanInput) : ℚ := d.num_tegs * d.energy_per_module_wh

/-- Intermediate total_energy_kwh of main.py line 194. -/
def total_energy_kwh (d : TEGPlanInput) : ℚ := total_energy_wh d / 1000

/-- Intermediate co2_saved_kg of main.py line 196. -/
def co2_saved_kg (d : TEGPlanInput) : ℚ := total_energy_kwh d * CO2_PER_KWH_KG

/-- Intermediate carbon_credits of main.py line 197. -/
def carbon_credits (d : TEGPlanInput) : ℚ := co2_saved_kg d * CARBON_CREDIT_PER_KG

/-- Intermediate min_savings_rm of main.py line 200. -/
def min_savings_rm (d : TEGPlanInput) : ℚ := total_energy_kwh d * TARIFF_MIN

/-- Intermediate max_savings_rm of main.py line 201. -/
def max_savings_rm (d : TEGPlanInput) : ℚ := total_energy_kwh d * TARIFF_MAX

/-- The calculate_teg_plan handler, main.py lines 191-210: a total pure
function of its request body.  The rounding of the returned fields and the
formatted savings-range string follow lines 203-210. -/
def calculate_teg_plan (d : TEGPlanInput) : TEGPlanResult :=
  { totalEnergyWh := total_energy_wh d
    totalEnergyKWh := pyRound 3 (total_energy_kwh d)
    numTegModules := d.num_tegs
    co2SavedKg := pyRound 3 (co2_saved_kg d)
    carbonCreditsPerDay := pyRound 4 (carbon_credits d)
    costSavingsRange :=
      "RM " ++ decString (pyRound 2 (min_savings_rm d))
        ++ " - RM " ++ decString (pyRound 2 (max_savings_rm d)) }

/-! ## Model of the Earth Engine objects used by get_lst

An Earth Engine image is a raster with a mask: a partial map from pixels to
values.  A filtered image collection is the list of its images.  The
geometry produced remotely from the request point (the buffered bounding
box, and the set of pixels that the 1000 meter sampling window covers) is
part of the world record, because the process receives it from the remote
service rather than computing it. -/

/-- A raster pixel coordinate. -/
abbrev Pixel := ℤ × ℤ

/-- A single-band Earth Engine image: value per pixel, none where masked. -/
abbrev EEImage := Pixel → Option ℚ

/-- A geographic region as a set of pixels. -/
abbrev GeoArea := Pixel → Bool

/-- The local filesystem: contents per path. -/
abbrev FileSystem := String → Option String

/-- Writing a file: the open for writing followed by write in main.py
lines 116-117 (and 147-148, 172-173) replaces any previous contents. -/
def writeFile (path content : String) (fs : FileSystem) : FileSystem :=
  fun q => if q = path then some content else fs q

/-- Median of a list of rationals: middle element of the sorted list, mean of
the two middle elements for an even length. -/
def medianQ (l : List ℚ) : ℚ :=
  let s := List.insertionSort (· ≤ ·) l
  if s.length % 2 = 1 then s.getD (s.length / 2) 0
  else (s.getD (s.length / 2 - 1) 0 + s.getD (s.length / 2) 0) / 2

/-- The Earth Engine median reducer over a collection: per pixel, the median
of the values present at that pixel, masked where no image has data. -/
def eeMedian (coll : List EEImage) : EEImage := fun p =>
  let vals := coll.filterMap (fun img => img p)
  if vals.isEmpty then none else some (medianQ vals)

/-- The Earth Engine mean reducer over a collection: per pixel, the mean of
the values present at that pixel, masked where no image has data. -/
def eeMean (coll : List EEImage) : EEImage := fun p =>
  let vals := coll.filterMap (fun img => img p)
  if vals.isEmpty then none else some (vals.sum / vals.length)

/-- Pointwise multiplication by a constant, as in the multiply call of
main.py line 58. -/
def eeMultiply (k : ℚ) (img : EEImage) : EEImage :=
  fun p => (img p).map (fun v => v * k)

/-- Pointwise subtraction of a constant, as in the subtract call of main.py
line 59. -/
def eeSubtract (k : ℚ) (img : EEImage) : EEImage :=
  fun p => (img p).map (fun v => v - k)

/-- The pixels whose centers lie within distance one pixel: the kernel of a
focal mean of radius 1 in pixel units. -/
def focalOffsets : List Pixel := [(0,0), (1,0), (-1,0), (0,1), (0,-1)]

/-- The focal mean filter of radius 1 pixel, main.py line 60: per pixel, the
mean of the unmasked values in the kernel neighborhood. -/
def eeFocalMean1 (img : EEImage) : EEImage := fun p =>
  let vals := focalOffsets.filterMap (fun o => img (p.1 + o.1, p.2 + o.2))
  if vals.isEmpty then none else some (vals.sum / vals.length)

/-- Clipping an image to a region, main.py lines 61 and 72: values outside
the region are masked. -/
def eeClip (area : GeoArea) (img : EEImage) : EEImage :=
  fun p => if area p then img p else none

/-- The reduceRegion call with the mean reducer, main.py lines 97-107: the
mean of the unmasked image values over the pixels of the sample region, or
absent when every pixel there is masked. -/
def reduceRegionMean (img : EEImage) (pixels : List Pixel) : Option ℚ :=
  let vals := pixels.filterMap img
  if vals.isEmpty then none else some (vals.sum / vals.length)

/-- Request body of the get_lst endpoint, main.py lines 32-34. -/
structure LocationRequest where
  lat : ℚ
  lon : ℚ
deriving DecidableEq

/-- Everything the get_lst handler receives from outside the process: the two
collections already filtered by the buffered bounding box and the trailing
200-day window, the resolved geographic area, the pixels of the 1000 meter
sampling window around the request point, the thumbnail URL returned by the
render service, the HTTP status and body of the image download, and the wall
clock reading used in the filename. -/
structure LstWorld where
  lstCollection : List EEImage
  sradCollection : List EEImage
  area : GeoArea
  samplePixels : List Pixel
  thumbUrl : String
  httpStatus : ℕ
  imageBytes : String
  now : String

/-- The raw_lst image of main.py line 56: median of the selected temperature
band over the filtered collection. -/
def raw_lst (w : LstWorld) : EEImage := eeMedian w.lstCollection

/-- The lst_image of main.py lines 57-62: multiply by 0.02, subtract 273.15,
focal mean of radius 1 pixel, clip to the area, applied in that order to the
median composite. -/
def lst_image (w : LstWorld) : EEImage :=
  eeClip w.area (eeFocalMean1 (eeSubtract (27315/100) (eeMultiply (2/100) (raw_lst w))))

/-- The solar_image of main.py line 72: mean of the radiation collection,
clipped to the area. -/
def solar_image (w : LstWorld) : EEImage :=
  eeClip w.area (eeMean w.sradCollection)

/-- The sampled temperature scalar, main.py lines 97-101 and 110. -/
def lst_value (w : LstWorld) : Option ℚ :=
  reduceRegionMean (lst_image w) w.samplePixels

/-- The sampled radiation scalar, main.py lines 103-107 and 111. -/
def srad_value (w : LstWorld) : Option ℚ :=
  reduceRegionMean (solar_image w) w.samplePixels

/-- The thumbnail filename of main.py line 85: rounded coordinates plus a
wall-clock timestamp. -/
def lstFilename (lat lon : ℚ) (now : String) : String :=
  "lst_" ++ decString (pyRound 6 lat) ++ "_" ++ decString (pyRound 6 lon)
    ++ "_" ++ now ++ ".png"

/-- The thumbnail path of main.py line 86: the OUTPUT_DIR joined with the
filename. -/
def lstPath (lat lon : ℚ) (now : String) : String :=
  "outputs/" ++ lstFilename lat lon now

/-- The JSON bodies the get_lst handler can return: an error object, an error
object carrying the upstream status code, or the success object of main.py
lines 118-124 with its five keys. -/
inductive LstResponse where
  | errorMsg (error : String)
  | errorStatus (error : String) (status : ℕ)
  | success (message path url : String) (lst : Option ℚ) (solar_radiation : Option ℚ)
deriving DecidableEq

/-- The lst field of the success body, main.py line 122: the conditional
expression rounds a truthy sampled value and maps an absent or zero (falsy)
value to null. -/
def truthyLst (v : Option ℚ) : Option ℚ :=
  match v with
  | none => none
  | some x => if x = 0 then none else some (pyRound 2 x)

/-- The solar_radiation field of the success body, main.py line 123: a truthy
sampled value is divided by 1000000 and rounded; an absent or zero (falsy)
value maps to null. -/
def truthySrad (v : Option ℚ) : Option ℚ :=
  match v with
  | none => none
  | some x => if x = 0 then none else some (pyRound 2 (x / 1000000))

/-- The get_lst handler, main.py lines 37-126, as a function of the request
body, the world, and the filesystem, returning the response body and the
filesystem after the call.  The emptiness guard of lines 53-54 tests only the
temperature collection; the file write of lines 116-117 happens only in the
status-200 branch. -/
def get_lst (data : LocationRequest) (w : LstWorld) (fs : FileSystem) :
    LstResponse × FileSystem :=
  if w.lstCollection.length = 0 then
    (.errorMsg "No valid LST data available for this location/date range.", fs)
  else
    let path := lstPath data.lat data.lon w.now
    let lst_celsius := lst_value w
    let solar_radiation := srad_value w
    if w.httpStatus = 200 then
      (.success "LST image saved." path w.thumbUrl
         (truthyLst lst_celsius) (truthySrad solar_radiation),
       writeFile path w.imageBytes fs)
    else
      (.errorStatus "Failed to fetch image" w.httpStatus, fs)

/-! ## The two map-image endpoints, main.py lines 129-175 -/

/-- Request body of the map endpoints, main.py lines 14-16. -/
structure Location where
  lat : ℚ
  lng : ℚ
deriving DecidableEq

/-- The environment of a map-image call: the HTTP status and body of the
image download, and the wall clock, which these handlers never consult. -/
structure MapWorld where
  httpStatus : ℕ
  imageBytes : String
  now : String

/-- Response bodies of the map endpoints: an error object or the success
object with message and file_path keys. -/
inductive MapResponse where
  | errorMsg (error : String)
  | ok (message file_path : String)
deriving DecidableEq

/-- The street view filename of main.py line 145: the stringified
coordinates with dots replaced by underscores; no timestamp. -/
def streetviewFilename (loc : Location) : String :=
  "streetview_" ++ dotToUnderscore (decString loc.lat)
    ++ "_" ++ dotToUnderscore (decString loc.lng) ++ ".jpg"

/-- The street view path of main.py line 146: SAVE_DIR joined with the
filename. -/
def streetviewPath (loc : Location) : String :=
  "static/maps/" ++ streetviewFilename loc

/-- The hybrid map filename of main.py line 170; no timestamp. -/
def hybridmapFilename (loc : Location) : String :=
  "hybridmap_" ++ dotToUnderscore (decString loc.lat)
    ++ "_" ++ dotToUnderscore (decString loc.lng) ++ ".jpg"

/-- The hybrid map path of main.py line 171. -/
def hybridmapPath (loc : Location) : String :=
  "static/maps/" ++ hybridmapFilename loc

/-- The streetview handler, main.py lines 129-150: on a non-200 download it
returns an error and writes nothing; otherwise it writes the image bytes to
the coordinate-derived path and returns it. -/
def get_street_view (loc : Location) (w : MapWorld) (fs : FileSystem) :
    MapResponse × FileSystem :=
  if w.httpStatus ≠ 200 then (.errorMsg "Could not fetch Street View image", fs)
  else
    (.ok "Street View image saved" (streetviewPath loc),
     writeFile (streetviewPath loc) w.imageBytes fs)

/-- The hybrid_map handler, main.py lines 152-175, structurally identical to
the streetview handler apart from URL, message and filename pattern. -/
def get_hybrid_map (loc : Location) (w : MapWorld) (fs : FileSystem) :
    MapResponse × FileSystem :=
  if w.httpStatus ≠ 200 then (.errorMsg "Could not fetch satellite image", fs)
  else
    (.ok "Hybrid satellite image saved" (hybridmapPath loc),
     writeFile (hybridmapPath loc) w.imageBytes fs)

/-- The empty filesystem, the state before any image has been written. -/
def emptyFS : FileSystem := fun _ => none

/-- An everywhere-unmasked constant raster, used as concrete collection
content in witnesses. -/
def constImg (v : ℚ) : EEImage := fun _ => some v

/-- A region containing every pixel. -/
def fullArea : GeoArea := fun _ => true

/-- A world whose filtered temperature collection is empty. -/
def emptyLstWorld : LstWorld :=
  ⟨[], [constImg 1000000], fullArea, [(0, 0)], "https://earthengine/thumb", 200, "png-bytes", "20250101120000"⟩

/-- A world whose thumbnail download fails with a 404. -/
def fetchFailWorld : LstWorld :=
  ⟨[constImg 14000], [constImg 1000000], fullArea, [(0, 0)], "https://earthengine/thumb", 404, "not-found", "20250101120000"⟩

/-- A world with radiation data but no temperature check needed: temperature
present, radiation collection empty. -/
def noSradWorld : LstWorld :=
  ⟨[constImg (29815/2)], [], fullArea, [(0, 0)], "https://earthengine/thumb", 200, "png-bytes", "20250101120000"⟩

/-- A world whose sampled temperature is 100 Celsius (outside any plausible
range) while the sampled radiation is exactly zero. -/
def mixedWorld : LstWorld :=
  ⟨[constImg (37315/2)], [constImg 0], fullArea, [(0, 0)], "https://earthengine/thumb", 200, "png-bytes", "20250101120000"⟩

/-- A world whose sampled temperature is exactly 0.0 Celsius while the
sampled radiation is 2000000. -/
def zeroLstWorld : LstWorld :=
  ⟨[constImg (27315/2)], [constImg 2000000], fullArea, [(0, 0)], "https://earthengine/thumb", 200, "png-bytes", "20250101120000"⟩

/-- A world whose sampled temperature is 25 Celsius and whose sampled
radiation is 3000000. -/
def sampledWorld : LstWorld :=
  ⟨[constImg (29815/2)], [constImg 3000000], fullArea, [(0, 0)], "https://earthengine/thumb", 200, "png-bytes", "20250101120000"⟩

/-- Modelled from the spec wording of the raster derivation (section 4.3):
per pixel, inside the geographic area, take the median across time of the
collection values in the kernel neighborhood, scale each by 0.02, subtract
273.15, and average the results over the 1-pixel-radius neighborhood;
outside the area the raster is masked.  This closed pointwise form states
the pipeline median, then scale, then offset, then local averaging, then
clip in the prescribed order. -/
def specTempPixel (coll : List EEImage) (area : GeoArea) (p : Pixel) : Option ℚ :=
  if area p then
    let nb := focalOffsets.filterMap (fun o =>
      (eeMedian coll (p.1 + o.1, p.2 + o.2)).map (fun m => m * (2/100) - 27315/100))
    if nb.isEmpty then none else some (nb.sum / nb.length)
  else none

/-- The reordered pipeline that clips before smoothing, used to show the
order of the stages is observable. -/
def lst_image_clip_first (w : LstWorld) : EEImage :=
  eeFocalMean1 (eeClip w.area (eeSubtract (27315/100) (eeMultiply (2/100) (raw_lst w))))

/-- A world whose area contains a single pixel and whose raster has a
different value at that pixel than around it, so that smoothing before and
after clipping disagree. -/
def orderDemoWorld : LstWorld :=
  ⟨[fun p => if p = (0, 0) then some (28315/2) else some (29315/2)],
   [], (fun p => decide (p = (0, 0))), [(0, 0)],
   "https://earthengine/thumb", 200, "png-bytes", "20250101120000"⟩

/-- A first map-endpoint environment. -/
def mapWorldA : MapWorld := ⟨200, "img-one", "20250101120000"⟩

/-- A second map-endpoint environment with different bytes and a later
clock. -/
def mapWorldB : MapWorld := ⟨200, "img-two", "20250102130000"⟩

/-- A demo coordinate for the map endpoints. -/
def demoLoc : Location := ⟨7/2, 101⟩

/-! ## Theorems -/

/-- Unfolding equation for fracStr at a successor fuel value. -/
theorem fracStr_step (n : ℕ) (q : ℚ) :
    fracStr (n+1) q = if q = 0 then "" else
      toString (⌊q * 10⌋).toNat ++ fracStr n (q * 10 - (⌊q * 10⌋ : ℚ)) := rfl

/-! ## Generic evaluation lemmas -/

/-- Rendering of the rational eleven hundredths. -/
theorem decString_011 : decString (11/100) = "0.11" := by
  simp only [decString, decStringNN]
  norm_num
  rw [show (30:ℕ) = 29+1 from rfl, fracStr_step]
  norm_num
  rw [show (29:ℕ) = 28+1 from rfl, fracStr_step]
  norm_num
  rw [show (28:ℕ) = 27+1 from rfl, fracStr_step]
  norm_num
  decide

/-- Rendering of the rational twenty-nine hundredths. -/
theorem decString_029 : decString (29/100) = "0.29" := by
  simp only [decString, decStringNN]
  norm_num
  rw [show (30:ℕ) = 29+1 from rfl, fracStr_step]
  norm_num
  rw [show (29:ℕ) = 28+1 from rfl, fracStr_step]
  norm_num
  rw [show (28:ℕ) = 27+1 from rfl, fracStr_step]
  norm_num
  decide

/-! ## Claims about the calculator -/

/-- C1: for every input, calculate_teg_plan computes totalEnergyWh as
num_tegs times energy_per_module_wh, totalEnergyKWh as that over 1000,
co2SavedKg as the kWh total times 0.7, carbonCredits as the CO2 total over
1000, and the savings range as the kWh total times 0.218 and times 0.571;
the returned fields round these values as the handler does;
cost_per_module_rm never influences the output.  The handler is a total
pure function of its request body, so it cannot fail and has no side
effects. -/
theorem teg_plan_formula_correct (d : TEGPlanInput) :
    (calculate_teg_plan d).totalEnergyWh = d.num_tegs * d.energy_per_module_wh
    ∧ (calculate_teg_plan d).totalEnergyKWh
        = pyRound 3 (d.num_tegs * d.energy_per_module_wh / 1000)
    ∧ (calculate_teg_plan d).co2SavedKg
        = pyRound 3 (d.num_tegs * d.energy_per_module_wh / 1000 * (7/10))
    ∧ (calculate_teg_plan d).carbonCreditsPerDay
        = pyRound 4 (d.num_tegs * d.energy_per_module_wh / 1000 * (7/10) / 1000)
    ∧ (calculate_teg_plan d).costSavingsRange
        = "RM " ++ decString (pyRound 2 (d.num_tegs * d.energy_per_module_wh / 1000 * (218/1000)))
          ++ " - RM "
          ++ decString (pyRound 2 (d.num_tegs * d.energy_per_module_wh / 1000 * (571/1000)))
    ∧ ∀ c : ℚ, calculate_teg_plan { d with cost_per_module_rm := c } = calculate_teg_plan d := by
  refine ⟨rfl, rfl, rfl, ?_, rfl, fun c => rfl⟩
  simp only [calculate_teg_plan, carbon_credits, co2_saved_kg, total_energy_kwh,
    total_energy_wh, CO2_PER_KWH_KG, CARBON_CREDIT_PER_KG]
  congr 1
  ring

/-- C2 counterexample: at the input with 100 modules, 5.0 Wh per module and
cost 2.0, the response does not carry carbonCredits 0.00035 together with the
cost range string claimed; the handler rounds carbon credits to 4 decimal
places and each end of the savings range to 2 decimal places, so the
five-decimal value 0.00035 and the strings 0.109 and 0.2855 cannot survive
the stated precision. -/
theorem teg_plan_c2_counterexample :
    ¬ ((calculate_teg_plan ⟨100, 5, 2⟩).totalEnergyWh = 500
       ∧ (calculate_teg_plan ⟨100, 5, 2⟩).totalEnergyKWh = 1/2
       ∧ (calculate_teg_plan ⟨100, 5, 2⟩).co2SavedKg = 7/20
       ∧ (calculate_teg_plan ⟨100, 5, 2⟩).carbonCreditsPerDay = 35/100000
       ∧ (calculate_teg_plan ⟨100, 5, 2⟩).costSavingsRange = "RM 0.109 - RM 0.2855") := by
  intro h
  have hc := h.2.2.2.1
  have hval : (calculate_teg_plan ⟨100, 5, 2⟩).carbonCreditsPerDay = 1/2500 := by
    simp only [calculate_teg_plan, carbon_credits, co2_saved_kg, total_energy_kwh,
      total_energy_wh, CO2_PER_KWH_KG, CARBON_CREDIT_PER_KG]
    norm_num [pyRound, roundHalfEven]
  rw [hval] at hc
  norm_num at hc

/-- C2 amended: at the input with 100 modules, 5.0 Wh per module and cost
2.0, the handler returns totalEnergyWh 500, totalEnergyKWh 0.5, 100 modules,
co2SavedKg 0.35, carbonCredits 0.0004 (the exact product 0.00035 rounded to
4 decimal places, the tie going to even; evaluated in IEEE-754 doubles the
product is slightly below 0.00035 and the field prints 0.0003 instead), and
the cost range string with both ends rounded to 2 decimal places. -/
theorem teg_plan_demo_exact_output :
    calculate_teg_plan ⟨100, 5, 2⟩ = ⟨500, 1/2, 100, 7/20, 1/2500, "RM 0.11 - RM 0.29"⟩ := by
  simp only [calculate_teg_plan, carbon_credits, co2_saved_kg, total_energy_kwh,
    total_energy_wh, min_savings_rm, max_savings_rm, CO2_PER_KWH_KG,
    CARBON_CREDIT_PER_KG, TARIFF_MIN, TARIFF_MAX, TEGPlanResult.mk.injEq]
  norm_num [pyRound, roundHalfEven]
  rw [decString_011, decString_029]
  decide

/-! ## Claims about the get_lst error paths -/

/-- C3: whenever the filtered temperature collection is empty, get_lst
returns exactly the no-data error object and leaves the filesystem
untouched; the guard of main.py lines 53-54 returns before any filename is
built or any download is attempted. -/
theorem get_lst_empty_returns_error (data : LocationRequest) (w : LstWorld)
    (fs : FileSystem) (h : w.lstCollection = []) :
    get_lst data w fs =
      (.errorMsg "No valid LST data available for this location/date range.", fs) := by
  simp [get_lst, h]

/-- Witness for C3: a concrete run against the empty-collection world. -/
theorem get_lst_empty_returns_error_witness :
    emptyLstWorld.lstCollection = []
    ∧ get_lst ⟨3, 101⟩ emptyLstWorld emptyFS =
        (.errorMsg "No valid LST data available for this location/date range.", emptyFS) :=
  ⟨rfl, get_lst_empty_returns_error ⟨3, 101⟩ emptyLstWorld emptyFS rfl⟩

/-- C4: whenever the download of the rendered thumbnail returns a status
other than 200, get_lst returns the error object carrying that upstream
status and writes nothing: the filesystem is returned unchanged, because the
write of main.py lines 116-117 sits inside the status-200 branch. -/
theorem get_lst_non200_fetch (data : LocationRequest) (w : LstWorld)
    (fs : FileSystem) (h1 : w.lstCollection ≠ []) (h2 : w.httpStatus ≠ 200) :
    get_lst data w fs = (.errorStatus "Failed to fetch image" w.httpStatus, fs) := by
  have hlen : w.lstCollection.length ≠ 0 := by
    simpa [List.length_eq_zero] using h1
  simp [get_lst, hlen, h2]

/-- Witness for C4: a concrete run whose image download returns 404. -/
theorem get_lst_non200_fetch_witness :
    fetchFailWorld.lstCollection ≠ []
    ∧ fetchFailWorld.httpStatus ≠ 200
    ∧ get_lst ⟨3, 101⟩ fetchFailWorld emptyFS =
        (.errorStatus "Failed to fetch image" 404, emptyFS) :=
  ⟨by simp [fetchFailWorld], by decide,
   get_lst_non200_fetch ⟨3, 101⟩ fetchFailWorld emptyFS (by simp [fetchFailWorld]) (by decide)⟩

/-- With an empty radiation collection the derived radiation raster is
masked everywhere, so the point sample is absent. -/
theorem srad_value_of_empty (w : LstWorld) (h : w.sradCollection = []) :
    srad_value w = none := by
  simp [srad_value, reduceRegionMean, solar_image, eeMean, eeClip, h]

/-- On the success path (nonempty temperature collection, download status
200) the handler returns the success body and writes the image bytes at the
generated path. -/
theorem get_lst_success_eq (data : LocationRequest) (w : LstWorld)
    (fs : FileSystem) (h1 : w.lstCollection ≠ []) (h2 : w.httpStatus = 200) :
    get_lst data w fs =
      (.success "LST image saved." (lstPath data.lat data.lon w.now) w.thumbUrl
         (truthyLst (lst_value w)) (truthySrad (srad_value w)),
       writeFile (lstPath data.lat data.lon w.now) w.imageBytes fs) := by
  have hlen : w.lstCollection.length ≠ 0 := by
    simpa [List.length_eq_zero] using h1
  simp [get_lst, hlen, h2]

/-- Point samples over a world holding one constant temperature raster and
one constant radiation raster: the temperature sample is the constant put
through scale and offset, the radiation sample is its constant. -/
theorem const_world_values (a b : ℚ) (url : String) (status : ℕ) (bytes ts : String) :
    lst_value ⟨[constImg a], [constImg b], fullArea, [(0, 0)], url, status, bytes, ts⟩
      = some (a * (2/100) - 27315/100)
    ∧ srad_value ⟨[constImg a], [constImg b], fullArea, [(0, 0)], url, status, bytes, ts⟩
      = some b := by
  constructor
  · simp [lst_value, lst_image, raw_lst, eeClip, eeFocalMean1, eeSubtract, eeMultiply,
      eeMedian, medianQ, reduceRegionMean, focalOffsets, constImg, fullArea,
      List.insertionSort, List.orderedInsert]
    ring
  · simp [srad_value, solar_image, eeClip, eeMean, reduceRegionMean, constImg, fullArea]

/-- C7: the emptiness guard protects only the temperature collection.  With
any nonempty temperature collection and an empty radiation collection the
handler never returns the no-data error; on a 200 download it still returns
a success body, in which the unguarded radiation derivation and sampling
simply produce a null scalar. -/
theorem radiation_unguarded (data : LocationRequest) (w : LstWorld)
    (fs : FileSystem) (h1 : w.lstCollection ≠ []) (h2 : w.sradCollection = []) :
    (get_lst data w fs).1
      ≠ .errorMsg "No valid LST data available for this location/date range."
    ∧ (w.httpStatus = 200 →
        (get_lst data w fs).1 =
          .success "LST image saved." (lstPath data.lat data.lon w.now) w.thumbUrl
            (truthyLst (lst_value w)) none) := by
  have hlen : w.lstCollection.length ≠ 0 := by
    simpa [List.length_eq_zero] using h1
  constructor
  · by_cases hs : w.httpStatus = 200 <;> simp [get_lst, hlen, hs]
  · intro hs
    rw [get_lst_success_eq data w fs h1 hs]
    simp [srad_value_of_empty w h2, truthySrad]

/-- Witness for C7: a concrete run with one temperature image and an empty
radiation collection returns a success body with a null radiation scalar. -/
theorem radiation_unguarded_witness :
    noSradWorld.lstCollection ≠ [] ∧ noSradWorld.sradCollection = []
    ∧ (get_lst ⟨3, 101⟩ noSradWorld emptyFS).1 =
        .success "LST image saved." (lstPath 3 101 "20250101120000")
          "https://earthengine/thumb" (truthyLst (lst_value noSradWorld)) none :=
  ⟨by simp [noSradWorld], rfl,
   (radiation_unguarded ⟨3, 101⟩ noSradWorld emptyFS (by simp [noSradWorld]) rfl).2 rfl⟩

/-- Concrete run over the zero-temperature world: the zero sample comes back
as null, the radiation sample as 2.0 (2000000 scaled and rounded). -/
theorem zeroLstWorld_run :
    (get_lst ⟨3, 101⟩ zeroLstWorld emptyFS).1 =
      .success "LST image saved." (lstPath 3 101 "20250101120000")
        "https://earthengine/thumb" none (some 2) := by
  rw [get_lst_success_eq ⟨3, 101⟩ zeroLstWorld emptyFS (by simp [zeroLstWorld]) rfl]
  have hv1 : lst_value zeroLstWorld = some 0 := by
    have h := (const_world_values (27315/2) 2000000 "https://earthengine/thumb" 200
      "png-bytes" "20250101120000").1
    norm_num at h
    exact h
  have hv2 : srad_value zeroLstWorld = some 2000000 :=
    (const_world_values (27315/2) 2000000 "https://earthengine/thumb" 200
      "png-bytes" "20250101120000").2
  simp only [hv1, hv2, truthyLst, truthySrad]
  norm_num [pyRound, roundHalfEven]
  exact ⟨rfl, rfl⟩

/-- Concrete run over the mixed world: the temperature sample 100 is
reported as is while the zero radiation sample is reported as null. -/
theorem mixedWorld_run :
    (get_lst ⟨3, 101⟩ mixedWorld emptyFS).1 =
      .success "LST image saved." (lstPath 3 101 "20250101120000")
        "https://earthengine/thumb" (some 100) none := by
  rw [get_lst_success_eq ⟨3, 101⟩ mixedWorld emptyFS (by simp [mixedWorld]) rfl]
  have hv1 : lst_value mixedWorld = some 100 := by
    have h := (const_world_values (37315/2) 0 "https://earthengine/thumb" 200
      "png-bytes" "20250101120000").1
    norm_num at h
    exact h
  have hv2 : srad_value mixedWorld = some 0 :=
    (const_world_values (37315/2) 0 "https://earthengine/thumb" 200
      "png-bytes" "20250101120000").2
  simp only [hv1, hv2, truthyLst, truthySrad]
  norm_num [pyRound, roundHalfEven]
  exact ⟨rfl, rfl⟩

/-- Concrete run over the in-range world: temperature sample 25 and
radiation sample 3000000 come back as 25.0 and 3.0. -/
theorem sampledWorld_run :
    (get_lst ⟨3, 101⟩ sampledWorld emptyFS).1 =
      .success "LST image saved." (lstPath 3 101 "20250101120000")
        "https://earthengine/thumb" (some 25) (some 3) := by
  rw [get_lst_success_eq ⟨3, 101⟩ sampledWorld emptyFS (by simp [sampledWorld]) rfl]
  have hv1 : lst_value sampledWorld = some 25 := by
    have h := (const_world_values (29815/2) 3000000 "https://earthengine/thumb" 200
      "png-bytes" "20250101120000").1
    norm_num at h
    exact h
  have hv2 : srad_value sampledWorld = some 3000000 :=
    (const_world_values (29815/2) 3000000 "https://earthengine/thumb" 200
      "png-bytes" "20250101120000").2
  simp only [hv1, hv2, truthyLst, truthySrad]
  norm_num [pyRound, roundHalfEven]
  exact ⟨rfl, rfl⟩

/-- C9: in a success body the lst field is null exactly when the sampled
temperature is absent or exactly zero, and the solar_radiation field is null
exactly when the sampled radiation is absent or exactly zero; each field
depends only on its own sample, so the two are nulled independently.  The
zero case comes from the Python truthiness test of main.py lines 122-123. -/
theorem zero_sample_reported_null (data : LocationRequest) (w : LstWorld)
    (fs : FileSystem) (h1 : w.lstCollection ≠ []) (h2 : w.httpStatus = 200) :
    ∀ m p u l s, (get_lst data w fs).1 = .success m p u l s →
      ((l = none ↔ lst_value w = none ∨ lst_value w = some 0)
       ∧ (s = none ↔ srad_value w = none ∨ srad_value w = some 0)) := by
  intro m p u l s hresp
  rw [get_lst_success_eq data w fs h1 h2] at hresp
  simp only [LstResponse.success.injEq] at hresp
  obtain ⟨hm, hp, hu, hl, hs⟩ := hresp
  subst hl; subst hs
  constructor
  · cases hveq : lst_value w with
    | none => simp [truthyLst, hveq]
    | some v =>
      by_cases h0 : v = 0
      · subst h0; simp [truthyLst, hveq]
      · simp [truthyLst, hveq, h0]
  · cases hveq : srad_value w with
    | none => simp [truthySrad, hveq]
    | some v =>
      by_cases h0 : v = 0
      · subst h0; simp [truthySrad, hveq]
      · simp [truthySrad, hveq, h0]

/-- Witness for C9: a run whose temperature sample is exactly 0.0 Celsius
(data present) and whose radiation sample is 2000000 returns a null lst next
to a non-null solar_radiation. -/
theorem zero_sample_reported_null_witness :
    zeroLstWorld.lstCollection ≠ [] ∧ zeroLstWorld.httpStatus = 200
    ∧ (((none : Option ℚ) = none
          ↔ lst_value zeroLstWorld = none ∨ lst_value zeroLstWorld = some 0)
       ∧ ((some (2:ℚ)) = none
          ↔ srad_value zeroLstWorld = none ∨ srad_value zeroLstWorld = some 0)) :=
  ⟨by simp [zeroLstWorld], rfl,
   zero_sample_reported_null ⟨3, 101⟩ zeroLstWorld emptyFS (by simp [zeroLstWorld]) rfl
     "LST image saved." (lstPath 3 101 "20250101120000") "https://earthengine/thumb"
     none (some 2) zeroLstWorld_run⟩

/-- C10: in a success body a non-null solar_radiation is the point-sampled
mean of the derived radiation raster divided by one million and rounded to 2
decimal places, while a non-null lst is the sampled temperature rounded to 2
decimal places with no scaling. -/
theorem scalar_scaling_rules (data : LocationRequest) (w : LstWorld)
    (fs : FileSystem) (h1 : w.lstCollection ≠ []) (h2 : w.httpStatus = 200) :
    ∀ m p u l s, (get_lst data w fs).1 = .success m p u l s →
      ((∀ v, lst_value w = some v → v ≠ 0 → l = some (pyRound 2 v))
       ∧ (∀ v, srad_value w = some v → v ≠ 0 → s = some (pyRound 2 (v / 1000000)))) := by
  intro m p u l s hresp
  rw [get_lst_success_eq data w fs h1 h2] at hresp
  simp only [LstResponse.success.injEq] at hresp
  obtain ⟨hm, hp, hu, hl, hs⟩ := hresp
  subst hl; subst hs
  constructor
  · intro v hv h0; simp [truthyLst, hv, h0]
  · intro v hv h0; simp [truthySrad, hv, h0]

/-- Witness for C10: a run with temperature sample 25 and radiation sample
3000000; the response carries 25.0 and 3.0. -/
theorem scalar_scaling_rules_witness :
    sampledWorld.lstCollection ≠ [] ∧ sampledWorld.httpStatus = 200
    ∧ lst_value sampledWorld = some 25
    ∧ srad_value sampledWorld = some 3000000
    ∧ (some (25:ℚ)) = some (pyRound 2 25)
    ∧ (some (3:ℚ)) = some (pyRound 2 (3000000 / 1000000)) := by
  have hv1 : lst_value sampledWorld = some 25 := by
    have h := (const_world_values (29815/2) 3000000 "https://earthengine/thumb" 200
      "png-bytes" "20250101120000").1
    norm_num at h
    exact h
  have hv2 : srad_value sampledWorld = some 3000000 :=
    (const_world_values (29815/2) 3000000 "https://earthengine/thumb" 200
      "png-bytes" "20250101120000").2
  have happ := scalar_scaling_rules ⟨3, 101⟩ sampledWorld emptyFS
    (by simp [sampledWorld]) rfl "LST image saved." (lstPath 3 101 "20250101120000")
    "https://earthengine/thumb" (some 25) (some 3) sampledWorld_run
  exact ⟨by simp [sampledWorld], rfl, hv1, hv2,
    happ.1 25 hv1 (by norm_num), happ.2 3000000 hv2 (by norm_num)⟩

/-- C5 counterexample: a valid coordinate with data in both collections for
which the success body has a non-null lst of 100 Celsius (outside the
claimed -60..60 range) next to a null solar_radiation; the two fields are
neither both null nor both floats, and no range is enforced.  The handler
nulls each field by its own truthiness test and performs no range check. -/
theorem get_lst_c5_counterexample :
    (get_lst ⟨3, 101⟩ mixedWorld emptyFS).1 =
      .success "LST image saved." (lstPath 3 101 "20250101120000")
        "https://earthengine/thumb" (some 100) none
    ∧ mixedWorld.lstCollection ≠ [] ∧ mixedWorld.sradCollection ≠ []
    ∧ ¬ ((some (100:ℚ) = none ∧ (none : Option ℚ) = none)
         ∨ ∃ a b : ℚ, some (100:ℚ) = some a ∧ (none : Option ℚ) = some b
             ∧ -60 ≤ a ∧ a ≤ 60 ∧ 0 ≤ b) := by
  refine ⟨mixedWorld_run, by simp [mixedWorld], by simp [mixedWorld], ?_⟩
  simp

/-- C5 amended: in a success body each of lst and solar_radiation is
independently either null or a finite rational: null when its own sample is
absent or zero, and otherwise the rounded sample (for lst) or the rounded
sample over one million (for solar_radiation).  One field may be null while
the other is not, and no physical range is enforced on either. -/
theorem get_lst_scalar_fields_independent (data : LocationRequest) (w : LstWorld)
    (fs : FileSystem) (h1 : w.lstCollection ≠ []) (h2 : w.httpStatus = 200) :
    ∀ m p u l s, (get_lst data w fs).1 = .success m p u l s →
      ((l = none ∨ ∃ v, lst_value w = some v ∧ v ≠ 0 ∧ l = some (pyRound 2 v))
       ∧ (s = none ∨ ∃ v, srad_value w = some v ∧ v ≠ 0
            ∧ s = some (pyRound 2 (v / 1000000)))) := by
  intro m p u l s hresp
  rw [get_lst_success_eq data w fs h1 h2] at hresp
  simp only [LstResponse.success.injEq] at hresp
  obtain ⟨hm, hp, hu, hl, hs⟩ := hresp
  subst hl; subst hs
  constructor
  · cases hveq : lst_value w with
    | none => exact Or.inl (by simp [truthyLst, hveq])
    | some v =>
      by_cases h0 : v = 0
      · exact Or.inl (by simp [truthyLst, hveq, h0])
      · exact Or.inr ⟨v, rfl, h0, by simp [truthyLst, h0]⟩
  · cases hveq : srad_value w with
    | none => exact Or.inl (by simp [truthySrad, hveq])
    | some v =>
      by_cases h0 : v = 0
      · exact Or.inl (by simp [truthySrad, hveq, h0])
      · exact Or.inr ⟨v, rfl, h0, by simp [truthySrad, h0]⟩

/-- Witness for the amended C5: in the zero-temperature run the lst field
sits in the null branch while solar_radiation sits in the rounded-value
branch. -/
theorem get_lst_scalar_fields_independent_witness :
    zeroLstWorld.lstCollection ≠ [] ∧ zeroLstWorld.httpStatus = 200
    ∧ (((none : Option ℚ) = none
          ∨ ∃ v, lst_value zeroLstWorld = some v ∧ v ≠ 0
              ∧ (none : Option ℚ) = some (pyRound 2 v))
       ∧ ((some (2:ℚ)) = none
          ∨ ∃ v, srad_value zeroLstWorld = some v ∧ v ≠ 0
              ∧ (some (2:ℚ)) = some (pyRound 2 (v / 1000000)))) :=
  ⟨by simp [zeroLstWorld], rfl,
   get_lst_scalar_fields_independent ⟨3, 101⟩ zeroLstWorld emptyFS
     (by simp [zeroLstWorld]) rfl "LST image saved." (lstPath 3 101 "20250101120000")
     "https://earthengine/thumb" none (some 2) zeroLstWorld_run⟩

/-- C6: the derived temperature raster of get_lst agrees at every pixel of
every world with the spec-worded closed form (median across time, times
0.02, minus 273.15, 1-pixel-radius focal average, clip), and the stage
order is observable: moving the clip before the smoothing changes the value
at the demo pixel, so no reordering is equivalent. -/
theorem lst_pipeline_spec_agreement :
    (∀ (w : LstWorld) (p : Pixel), lst_image w p = specTempPixel w.lstCollection w.area p)
    ∧ lst_image orderDemoWorld (0, 0) ≠ lst_image_clip_first orderDemoWorld (0, 0) := by
  constructor
  · intro w p
    simp only [lst_image, specTempPixel, eeClip, eeFocalMean1, eeSubtract, eeMultiply,
      raw_lst]
    by_cases h : w.area p
    · have hfun : (fun o : Pixel =>
          Option.map (fun v => v - 27315/100)
            (Option.map (fun v => v * (2/100)) (eeMedian w.lstCollection (p.1 + o.1, p.2 + o.2))))
          = fun o : Pixel =>
              Option.map (fun m => m * (2/100) - 27315/100)
                (eeMedian w.lstCollection (p.1 + o.1, p.2 + o.2)) := by
        funext o
        cases eeMedian w.lstCollection (p.1 + o.1, p.2 + o.2) <;> rfl
      simp only [h, if_true, hfun]
    · simp [h]
  · have h1 : lst_image orderDemoWorld (0, 0) = some 18 := by
      simp [lst_image, raw_lst, eeMedian, medianQ, eeClip, eeFocalMean1, eeSubtract,
        eeMultiply, focalOffsets, orderDemoWorld, List.insertionSort, List.orderedInsert]
      norm_num
    have h2 : lst_image_clip_first orderDemoWorld (0, 0) = some 10 := by
      simp [lst_image_clip_first, raw_lst, eeMedian, medianQ, eeClip, eeFocalMean1,
        eeSubtract, eeMultiply, focalOffsets, orderDemoWorld, List.insertionSort,
        List.orderedInsert]
      norm_num
    rw [h1, h2]
    simp

/-- C8: the streetview and hybrid map paths are functions of the coordinate
alone: two successful calls with the same coordinate against arbitrary
environments (in particular different clock readings) return the same path,
and after the second call that path holds the second call's bytes, the first
write having been overwritten.  The get_lst filename, by contrast, embeds
the clock reading: different timestamps always give different filenames. -/
theorem filename_determinism (loc : Location) (w1 w2 : MapWorld) (fs : FileSystem)
    (h1 : w1.httpStatus = 200) (h2 : w2.httpStatus = 200) :
    (get_street_view loc w1 fs).1 = .ok "Street View image saved" (streetviewPath loc)
    ∧ (get_street_view loc w2 ((get_street_view loc w1 fs).2)).2 (streetviewPath loc)
        = some w2.imageBytes
    ∧ (get_hybrid_map loc w1 fs).1 = .ok "Hybrid satellite image saved" (hybridmapPath loc)
    ∧ (get_hybrid_map loc w2 ((get_hybrid_map loc w1 fs).2)).2 (hybridmapPath loc)
        = some w2.imageBytes
    ∧ ∀ la lo : ℚ, ∀ t1 t2 : String, t1 ≠ t2 →
        lstFilename la lo t1 ≠ lstFilename la lo t2 := by
  refine ⟨by simp [get_street_view, h1], by simp [get_street_view, h1, h2, writeFile],
    by simp [get_hybrid_map, h1], by simp [get_hybrid_map, h1, h2, writeFile],
    fun la lo t1 t2 hne heq => hne ?_⟩
  have hd := congrArg String.data heq
  simp only [lstFilename, String.data_append, List.append_assoc,
    List.append_right_inj, List.append_left_inj] at hd
  exact String.ext hd

/-- Witness for C8: two concrete successful calls per endpoint at the same
coordinate under different clocks write to one shared path, which ends up
holding the second bytes, while two get_lst filenames at that coordinate
under those two clocks differ. -/
theorem filename_determinism_witness :
    mapWorldA.httpStatus = 200 ∧ mapWorldB.httpStatus = 200
    ∧ ((get_street_view demoLoc mapWorldA emptyFS).1
          = .ok "Street View image saved" (streetviewPath demoLoc)
       ∧ (get_street_view demoLoc mapWorldB
            ((get_street_view demoLoc mapWorldA emptyFS).2)).2 (streetviewPath demoLoc)
          = some "img-two"
       ∧ (get_hybrid_map demoLoc mapWorldA emptyFS).1
          = .ok "Hybrid satellite image saved" (hybridmapPath demoLoc)
       ∧ (get_hybrid_map demoLoc mapWorldB
            ((get_hybrid_map demoLoc mapWorldA emptyFS).2)).2 (hybridmapPath demoLoc)
          = some "img-two"
       ∧ lstFilename 3 101 "20250101120000" ≠ lstFilename 3 101 "20250102130000") := by
  have hmain := filename_determinism demoLoc mapWorldA mapWorldB emptyFS rfl rfl
  exact ⟨rfl, rfl, hmain.1, hmain.2.1, hmain.2.2.1, hmain.2.2.2.1,
    hmain.2.2.2.2 3 101 "20250101120000" "20250102130000" (by decide)⟩
